import Mathlib

/-!
Shallow embedding of the SenseService repository (Python) in Lean 4.

Python floats are modelled as exact rationals (`ℚ`); fallible Python code
(statements that can raise) is modelled with `Except PyError`.  Stateful
objects become records, and each method becomes a function from the record
(plus the values the external collaborators would return) to the updated
record.  The embedding follows `src/sense_service/__init__.py`,
`src/sense_service/sensors/__init__.py` and
`src/sense_service/sensors/collector.py` (the configurable service variant,
which the spec declares authoritative in its §9 open question).
-/

set_option autoImplicit false

namespace SenseService

/-- The Python exceptions that the modelled code can raise. -/
inductive PyError where
  | valueError (msg : String)
  | typeError (msg : String)
  | zeroDivisionError
  | invalidTemperatureSourceError
  | attributeError (msg : String)
  deriving DecidableEq, Repr

/-- A Python value as far as `isinstance` checks in the modelled code need:
either a string or some non-string value (int, float, None, ...). -/
inductive PyVal where
  | str (s : String)
  | int (n : Int)
  | rat (q : ℚ)
  | pyNone
  deriving DecidableEq, Repr

/--
State of `SensorDataSmoother`, from `src/sense_service/sensors/__init__.py`
lines 13-26: `method`, `window_size`, `alpha`, `data` (a
`deque(maxlen=window_size)`, oldest element first) and `ema`
(`None` until the first exponential-moving-average sample).
-/
structure SensorDataSmoother where
  method : String
  window_size : Nat
  alpha : ℚ
  data : List ℚ
  ema : Option ℚ
  deriving DecidableEq, Repr

/--
Appending to a `collections.deque` with `maxlen`: the new element goes to
the right and, past capacity, elements are evicted from the left so that at
most `maxlen` elements remain (with `maxlen = 0` the deque stays empty).
-/
def dequeAppend (maxlen : Nat) (xs : List ℚ) (x : ℚ) : List ℚ :=
  (xs ++ [x]).drop ((xs ++ [x]).length - maxlen)

/--
Embeds `SensorDataSmoother.__init__` (lines 13-26).  The only statement that can
raise is `deque(maxlen=window_size)`, which raises `ValueError` for a
negative `maxlen`; no validation of `method`, `window_size` or `alpha`
happens here.
-/
def SensorDataSmoother.init (method : String) (window_size : Int) (alpha : ℚ) :
    Except PyError SensorDataSmoother :=
  if window_size < 0 then
    .error (.valueError "maxlen must be non-negative")
  else
    .ok { method := method, window_size := window_size.toNat, alpha := alpha,
          data := [], ema := none }

/--
Embeds `SensorDataSmoother.moving_average` (lines 47-58): append to the bounded
deque, return `sum(self.data) / len(self.data)`.  Python's division raises
`ZeroDivisionError` when the deque is empty (which happens exactly when
`window_size = 0`).
-/
def SensorDataSmoother.moving_average (s : SensorDataSmoother) (new_data : ℚ) :
    Except PyError (ℚ × SensorDataSmoother) :=
  if (dequeAppend s.window_size s.data new_data).length = 0 then
    .error .zeroDivisionError
  else
    .ok ((dequeAppend s.window_size s.data new_data).sum /
          ((dequeAppend s.window_size s.data new_data).length : ℚ),
         { s with data := dequeAppend s.window_size s.data new_data })

/--
Embeds `SensorDataSmoother.exponential_moving_average` (lines 60-74): first sample
initializes the running value, later samples blend with factor `alpha`.
-/
def SensorDataSmoother.exponential_moving_average (s : SensorDataSmoother) (new_data : ℚ) :
    ℚ × SensorDataSmoother :=
  match s.ema with
  | none => (new_data, { s with ema := some new_data })
  | some e =>
    let v := (1 - s.alpha) * e + s.alpha * new_data
    (v, { s with ema := some v })

/--
Embeds `SensorDataSmoother.apply` (lines 28-45): dispatch on the `method` string;
an unknown method raises `ValueError` here, at apply time.
-/
def SensorDataSmoother.apply (s : SensorDataSmoother) (new_data : ℚ) :
    Except PyError (ℚ × SensorDataSmoother) :=
  if s.method = "none" then
    .ok (new_data, s)
  else if s.method = "moving_average" then
    s.moving_average new_data
  else if s.method = "exponential_moving_average" then
    .ok (s.exponential_moving_average new_data)
  else
    .error (.valueError ("Invalid smoothing method: " ++ s.method))

/-- Feed a list of data points through a smoother one `apply` at a time,
collecting the returned smoothed values and the final state. -/
def applyList (s : SensorDataSmoother) : List ℚ → Except PyError (List ℚ × SensorDataSmoother)
  | [] => .ok ([], s)
  | x :: xs =>
    match s.apply x with
    | .error e => .error e
    | .ok (y, s₁) =>
      match applyList s₁ xs with
      | .error e => .error e
      | .ok (ys, s₂) => .ok (y :: ys, s₂)

/-- The smoother state produced by `SensorDataSmoother("moving_average", N)`
(Python default `alpha=0.2`). -/
def freshMA (N : Nat) : SensorDataSmoother :=
  { method := "moving_average", window_size := N, alpha := 1/5, data := [], ema := none }

/-- The smoother state produced by
`SensorDataSmoother("exponential_moving_average", alpha=a)`
(Python default `window_size=5`). -/
def freshEMA (a : ℚ) : SensorDataSmoother :=
  { method := "exponential_moving_average", window_size := 5, alpha := a,
    data := [], ema := none }

namespace Temperature

/-- Embeds `Temperature.convert_c_to_f` (sensors/__init__.py lines 80-83). -/
def convert_c_to_f (temp : ℚ) : ℚ := temp * 1.8 + 32

/-- Embeds `Temperature.convert_c_to_k` (sensors/__init__.py lines 85-88). -/
def convert_c_to_k (temp : ℚ) : ℚ := temp + 273.15

/-- The inverse Fahrenheit conversion `(temp - 32) / 1.8` as inlined in
`calculate_dew_point` / `calculate_heat_index` (lines 105-106, 124-125). -/
def fahrenheit_to_celsius (temp : ℚ) : ℚ := (temp - 32) / 1.8

/-- The inverse Kelvin conversion `temp - 273.15` as inlined in
`calculate_dew_point` / `calculate_heat_index` (lines 107-108, 126-127). -/
def kelvin_to_celsius (temp : ℚ) : ℚ := temp - 273.15

/-- The unit-dispatch prefix shared verbatim by `calculate_dew_point`
(lines 104-108) and `calculate_heat_index` (lines 123-127): convert the
input temperature to Celsius; a unit other than `F`/`K` is left as is. -/
def toCelsius (temp : ℚ) (unit : String) : ℚ :=
  if unit = "F" then fahrenheit_to_celsius temp
  else if unit = "K" then kelvin_to_celsius temp
  else temp

/-- The unit-dispatch suffix shared verbatim by `calculate_dew_point`
(lines 113-118) and `calculate_heat_index` (lines 137-142): convert a
Celsius result back to the input unit. -/
def fromCelsius (c : ℚ) (unit : String) : ℚ :=
  if unit = "F" then convert_c_to_f c
  else if unit = "K" then convert_c_to_k c
  else c

/-- Embeds `Temperature.calculate_dew_point` (sensors/__init__.py lines 90-118):
convert to Celsius, compute `temp - ((100 - humidity) / 5)`, convert back. -/
def calculate_dew_point (temp humidity : ℚ) (unit : String) : ℚ :=
  fromCelsius (toCelsius temp unit - ((100 - humidity) / 5)) unit

/-- The Rothfusz regression polynomial from `calculate_heat_index`
(lines 130-135), on Celsius temperature `t` and percentage humidity `h`. -/
def rothfusz (t h : ℚ) : ℚ :=
  -8.78469475556 + 1.61139411 * t + 2.33854883889 * h
    - 0.14611605 * t * h - 0.012308094 * t^2
    - 0.0164248277778 * h^2 + 0.002211732 * t^2 * h
    + 0.00072546 * t * h^2 - 0.000003582 * t^2 * h^2

/-- Embeds `Temperature.calculate_heat_index` (sensors/__init__.py lines 120-142):
convert to Celsius; below 27 °C the heat index is the temperature itself,
otherwise the Rothfusz regression applies; convert back to the input unit. -/
def calculate_heat_index (temp humidity : ℚ) (unit : String) : ℚ :=
  fromCelsius
    (if toCelsius temp unit < 27 then toCelsius temp unit
     else rothfusz (toCelsius temp unit) humidity) unit

end Temperature

/-- Round-half-to-even on rationals, the rounding rule of Python's built-in
`round` (the embedding treats float values as exact decimals). -/
def roundHalfEven (x : ℚ) : ℤ :=
  if Int.fract x < 1/2 then ⌊x⌋
  else if 1/2 < Int.fract x then ⌊x⌋ + 1
  else if ⌊x⌋ % 2 = 0 then ⌊x⌋ else ⌊x⌋ + 1

/-- Python's `round(x, 2)`: round half to even at two decimal places. -/
def pyRound2 (x : ℚ) : ℚ := (roundHalfEven (100 * x) : ℚ) / 100

/--
State of `HighResTempCollector`, from `src/sense_service/sensors/collector.py`
lines 25-49.  Its `sense` argument is the owning `SenseHatMQTT` and its
`smoother` argument is a reference to that service's own
`data_smoother` object (see `SenseHatMQTT.start_collector`), so in the
embedding the shared smoother lives in the service record and only the
collector's private fields appear here.  `thread` is `None` until
`start()`; a joined or live thread is modelled as `some ()`.
-/
structure HighResTempCollector where
  interval : ℚ
  running : Bool
  thread : Option Unit
  deriving DecidableEq, Repr

/-- Embeds `HighResTempCollector.stop` (collector.py lines 68-72): clear the
running flag and join the thread when one was started.  `join` does not
change any modelled state and cannot raise, so `stop` is total. -/
def HighResTempCollector.stop (c : HighResTempCollector) : HighResTempCollector :=
  { c with running := false }

/-- Embeds `HighResTempCollector.start` (collector.py lines 63-66): spawn the
collection thread; the spawned `collect` loop sets `running = True`. -/
def HighResTempCollector.start (c : HighResTempCollector) : HighResTempCollector :=
  { c with running := true, thread := some () }

/--
State of `SenseHatMQTT`, from `src/sense_service/__init__.py`.  MQTT client,
SenseHat device and locks are external collaborators and carry no modelled
state; `temp_collector` is `None` until `start_collector` runs
(`__init__` line 109).
-/
structure SenseHatMQTT where
  running : Bool
  data_smoother : Option SensorDataSmoother
  temp_source : String
  TEMP_UNIT : String
  topic : String
  temp_collector : Option HighResTempCollector
  high_res_interval : ℚ
  deriving DecidableEq, Repr

/-- Embeds `SenseHatMQTT.VALID_TEMP_SOURCES` (line 30). -/
def VALID_TEMP_SOURCES : List String := ["humidity", "pressure"]

/-- ASCII lowercasing of one character, as Python's `str.lower` does on the
ASCII strings this code handles. -/
def lowerChar (c : Char) : Char :=
  if 'A' ≤ c ∧ c ≤ 'Z' then Char.ofNat (c.toNat + 32) else c

/-- Python's `str.lower()` on the ASCII strings this code handles. -/
def pyLower (s : String) : String := ⟨s.data.map lowerChar⟩

/-- The `temperature_source` setter (lines 143-148): reject values whose
lowercase form is not a valid source, otherwise store the lowercase form. -/
def SenseHatMQTT.set_temperature_source (svc : SenseHatMQTT) (new : String) :
    Except PyError SenseHatMQTT :=
  if pyLower new ∈ VALID_TEMP_SOURCES then
    .ok { svc with temp_source := pyLower new }
  else
    .error .invalidTemperatureSourceError

/-- The `topic` setter (lines 164-167): raise `TypeError` unless the new
value is a string — and then return without ever assigning
`self.__topic`, leaving the stored topic unchanged. -/
def SenseHatMQTT.set_topic (svc : SenseHatMQTT) (new : PyVal) :
    Except PyError SenseHatMQTT :=
  match new with
  | .str _ => .ok svc
  | _ => .error (.typeError "topic must be a string!")

/--
Embeds `SenseHatMQTT.__init__` (lines 32-117).  Broker address/port, HAT version
and the MQTT connect call touch only external collaborators; the
environment collaborator's temperature unit is folded into the `temp_unit`
argument (`temp_unit or env.get_temp_unit() or "C"`).  Python truthiness
makes an empty string fall through to the defaults, and the
`temperature_source` setter is the one construction step that can raise.
-/
def SenseHatMQTT.init (topic : Option String) (data_smoother : Option SensorDataSmoother)
    (high_res_interval : ℚ) (temp_source : Option String) (temp_unit : Option String) :
    Except PyError SenseHatMQTT :=
  let requested := match temp_source with
    | some s => s
    | none => "humidity"
  let base : SenseHatMQTT :=
    { running := false
      data_smoother := data_smoother
      temp_source := ""
      TEMP_UNIT := (match temp_unit with
        | some u => if u = "" then "C" else u
        | none => "C")
      topic := (match topic with
        | some t => if t = "" then "rpi-sense" else t
        | none => "rpi-sense")
      temp_collector := none
      high_res_interval := high_res_interval }
  base.set_temperature_source requested

/-- Embeds `SenseHatMQTT.start_collector` (lines 250-252): construct the
collector, handing it `self` and **the same** `data_smoother` object the
publish path uses; the shared smoother stays in the service record. -/
def SenseHatMQTT.start_collector (svc : SenseHatMQTT) : SenseHatMQTT :=
  let c : HighResTempCollector :=
    { interval := svc.high_res_interval, running := false, thread := none }
  { svc with temp_collector := some c }

/--
One iteration of `HighResTempCollector.collect` (collector.py lines 51-61)
for a collector created by `start_collector`: read a raw high-resolution
temperature from the device (here an input) and feed it through the
service's `data_smoother` — the very object the publish path smooths with —
discarding the return value.  Exceptions are caught and logged, so the
iteration is total.
-/
def SenseHatMQTT.collector_step (svc : SenseHatMQTT) (raw_temp : ℚ) : SenseHatMQTT :=
  match svc.data_smoother with
  | none => svc
  | some sm =>
    match sm.apply raw_temp with
    | .error _ => svc
    | .ok (_, sm₁) => { svc with data_smoother := some sm₁ }

/--
Embeds `SenseHatMQTT.get_temp` (lines 169-189).  The device's two temperature
readings are inputs.  With a validated source one of the two branches
always fires; were the source invalid, `raw_temp` would stay `None` and the
first arithmetic on it would raise `TypeError`, modelled here as an
immediate `TypeError`.  Smoothing mutates the service's `data_smoother`.
-/
def SenseHatMQTT.get_temp (svc : SenseHatMQTT)
    (temp_from_humidity temp_from_pressure : ℚ) :
    Except PyError (ℚ × SenseHatMQTT) :=
  let raw : Option ℚ :=
    if svc.temp_source = "humidity" then some temp_from_humidity
    else if svc.temp_source = "pressure" then some temp_from_pressure
    else none
  match raw with
  | none => .error (.typeError "unsupported operand type: raw_temp is None")
  | some raw_temp =>
    let convert : ℚ → ℚ := fun t =>
      if svc.TEMP_UNIT = "F" then Temperature.convert_c_to_f t
      else if svc.TEMP_UNIT = "K" then Temperature.convert_c_to_k t
      else t
    match svc.data_smoother with
    | none => .ok (convert raw_temp, svc)
    | some sm =>
      match sm.apply raw_temp with
      | .error e => .error e
      | .ok (temp, sm₁) => .ok (convert temp, { svc with data_smoother := some sm₁ })

/--
Embeds `SenseHatMQTT.get_sense_data` (lines 198-218): smoothed temperature, raw
pressure and humidity from the device (inputs here), derived heat index and
dew point, each rounded to two decimals, assembled in the dict's insertion
order.  The payload is modelled as the ordered key/value list that
`json.dumps` serializes.
-/
def SenseHatMQTT.get_sense_data (svc : SenseHatMQTT)
    (temp_from_humidity temp_from_pressure pressure humidity : ℚ) :
    Except PyError (List (String × ℚ) × SenseHatMQTT) :=
  match svc.get_temp temp_from_humidity temp_from_pressure with
  | .error e => .error e
  | .ok (temp, svc₁) =>
    let heat_index := Temperature.calculate_heat_index temp humidity svc.TEMP_UNIT
    let dew_point := Temperature.calculate_dew_point temp humidity svc.TEMP_UNIT
    .ok ([("temperature", pyRound2 temp),
          ("pressure", pyRound2 pressure),
          ("humidity", pyRound2 humidity),
          ("real_feel", pyRound2 heat_index),
          ("dew_point", pyRound2 dew_point)], svc₁)

/-- Embeds `SenseHatMQTT.stop` (lines 226-231): `self.temp_collector.stop()` is
the first statement; before `start_collector` has run, `temp_collector` is
still `None` and the attribute access raises `AttributeError`.  Afterwards
the collector is stopped, `running` cleared, and the display cleared
(external collaborator). -/
def SenseHatMQTT.stop (svc : SenseHatMQTT) : Except PyError SenseHatMQTT :=
  match svc.temp_collector with
  | none => .error (.attributeError "NoneType object has no attribute stop")
  | some c => .ok { svc with temp_collector := some c.stop, running := false }

/-! ### Shared concrete states and helper lemmas -/

/-- The service state produced by `SenseHatMQTT(broker, port)` with all
optional arguments left at their defaults: no smoother, Celsius, humidity
source, default topic, no collector yet. -/
def svcPlain : SenseHatMQTT :=
  { running := false, data_smoother := none, temp_source := "humidity",
    TEMP_UNIT := "C", topic := "rpi-sense", temp_collector := none,
    high_res_interval := 1 }

/-- A collector as constructed by `HighResTempCollector.__init__` with
interval 1, before `start()` has ever run: `running = False`,
`thread = None`. -/
def collectorFresh : HighResTempCollector :=
  { interval := 1, running := false, thread := none }

/-- A service state as reached by `__init__` with
`SensorDataSmoother("moving_average", window_size=2)` followed by `run()`
(which starts the MQTT loop and the collector): both the sampler and the
publish path are now live and hold the same smoother object. -/
def svcShared : SenseHatMQTT :=
  { running := true, data_smoother := some (freshMA 2), temp_source := "humidity",
    TEMP_UNIT := "C", topic := "rpi-sense",
    temp_collector := some { interval := 1, running := true, thread := some () },
    high_res_interval := 1 }

theorem dequeAppend_length (m : Nat) (xs : List ℚ) (x : ℚ) :
    (dequeAppend m xs x).length = min (xs.length + 1) m := by
  simp [dequeAppend]
  omega

theorem fromCelsius_toCelsius (t : ℚ) (u : String) :
    Temperature.fromCelsius (Temperature.toCelsius t u) u = t := by
  by_cases h1 : u = "F"
  · subst h1
    show Temperature.convert_c_to_f (Temperature.fahrenheit_to_celsius t) = t
    unfold Temperature.convert_c_to_f Temperature.fahrenheit_to_celsius
    field_simp
  · by_cases h2 : u = "K"
    · subst h2
      show Temperature.convert_c_to_k (Temperature.kelvin_to_celsius t) = t
      unfold Temperature.convert_c_to_k Temperature.kelvin_to_celsius
      ring
    · unfold Temperature.fromCelsius Temperature.toCelsius
      simp only [if_neg h1, if_neg h2]

theorem apply_of_method_ma (s : SensorDataSmoother) (x : ℚ)
    (hm : s.method = "moving_average") :
    s.apply x = s.moving_average x := by
  unfold SensorDataSmoother.apply
  rw [hm]
  rfl

theorem apply_of_method_ema (s : SensorDataSmoother) (x : ℚ)
    (hm : s.method = "exponential_moving_average") :
    s.apply x = .ok (s.exponential_moving_average x) := by
  unfold SensorDataSmoother.apply
  rw [hm]
  rfl

/-! ### C5 -/

/-- C5: for every temperature `t` and humidity `h` whose Celsius-converted
temperature is below 27, `calculate_heat_index t h unit` returns the input
temperature `t` itself. -/
theorem heat_index_below_27_identity (temp humidity : ℚ) (unit : String)
    (h : Temperature.toCelsius temp unit < 27) :
    Temperature.calculate_heat_index temp humidity unit = temp := by
  unfold Temperature.calculate_heat_index
  rw [if_pos h]
  exact fromCelsius_toCelsius temp unit

/-- Witness for C5 at the spec's scenario `heat_index(20, 50, "C") == 20`. -/
theorem heat_index_below_27_identity_witness :
    Temperature.toCelsius 20 "C" < 27 ∧
    Temperature.calculate_heat_index 20 50 "C" = 20 :=
  ⟨by decide, heat_index_below_27_identity 20 50 "C" (by decide)⟩

/-! ### C6 -/

/-- C6: converting Celsius to Fahrenheit after the inverse conversion
`(x - 32) / 1.8` reproduces `x` exactly, and likewise for Kelvin with the
inverse `x - 273.15` (the embedding works in exact rationals, so "within
floating-point tolerance" strengthens to equality). -/
theorem temperature_conversion_round_trip (x : ℚ) :
    Temperature.convert_c_to_f (Temperature.fahrenheit_to_celsius x) = x ∧
    Temperature.convert_c_to_k (Temperature.kelvin_to_celsius x) = x := by
  constructor
  · unfold Temperature.convert_c_to_f Temperature.fahrenheit_to_celsius
    have h18 : (1.8 : ℚ) ≠ 0 := by norm_num
    field_simp
  · unfold Temperature.convert_c_to_k Temperature.kelvin_to_celsius
    ring

/-! ### C2 -/

/-- C2 counterexample: with the unknown method tag `"bogus"`, construction
succeeds (no validation happens in `__init__`), and the very first `apply`
is where the invalid method is rejected, with `ValueError` — refuting the
claim that construction fails and that apply is never the first rejection
point. -/
theorem invalid_method_accepted_at_construction :
    SensorDataSmoother.init "bogus" 5 (1/5) =
      .ok { method := "bogus", window_size := 5, alpha := 1/5, data := [], ema := none } ∧
    SensorDataSmoother.apply
      { method := "bogus", window_size := 5, alpha := 1/5, data := [], ema := none } 20 =
      .error (.valueError "Invalid smoothing method: bogus") := by
  constructor <;> rfl

/-- C2 (amended): constructing a smoother with an unknown method tag
succeeds (for any non-negative window), and every `apply` with that method
raises `ValueError`, so apply — not construction — is the rejection point;
a bad temperature source is raised at service construction
(`InvalidTemperatureSourceError`); the temperature unit is never validated
(service construction succeeds for every unit string). -/
theorem invalid_config_rejection_points
    (m : String) (w : Int) (a x : ℚ) (s : SensorDataSmoother) (src : String)
    (topic tu : Option String) (ds : Option SensorDataSmoother) (hri : ℚ)
    (hm1 : m ≠ "none") (hm2 : m ≠ "moving_average")
    (hm3 : m ≠ "exponential_moving_average")
    (hw : 0 ≤ w) (hini : SensorDataSmoother.init m w a = .ok s)
    (hsrc : pyLower src ∉ VALID_TEMP_SOURCES) :
    s.apply x = .error (.valueError ("Invalid smoothing method: " ++ m)) ∧
    SenseHatMQTT.init topic ds hri (some src) tu = .error .invalidTemperatureSourceError ∧
    (∀ u : String, ∃ svc, SenseHatMQTT.init topic ds hri none (some u) = .ok svc) := by
  refine ⟨?_, ?_, ?_⟩
  · unfold SensorDataSmoother.init at hini
    rw [if_neg (not_lt.mpr hw)] at hini
    obtain rfl : _ = s := by injection hini
    unfold SensorDataSmoother.apply
    simp only [hm1, hm2, hm3, if_neg, if_false, reduceIte]
  · unfold SenseHatMQTT.init SenseHatMQTT.set_temperature_source
    rw [if_neg hsrc]
  · exact fun u => ⟨_, rfl⟩

/-- Witness for C2 at method `"bogus"`, source `"cpu"`, unit `"X"`. -/
theorem invalid_config_rejection_points_witness :
    ("bogus" : String) ≠ "none" ∧
    (SensorDataSmoother.apply
        { method := "bogus", window_size := 5, alpha := 1/5, data := [], ema := none } 1 =
        .error (.valueError ("Invalid smoothing method: " ++ "bogus")) ∧
      SenseHatMQTT.init none none 1 (some "cpu") none =
        .error .invalidTemperatureSourceError ∧
      (∀ u : String, ∃ svc, SenseHatMQTT.init none none 1 none (some u) = .ok svc)) :=
  ⟨by decide,
   invalid_config_rejection_points "bogus" 5 (1/5) 1
     { method := "bogus", window_size := 5, alpha := 1/5, data := [], ema := none }
     "cpu" none none none 1 (by decide) (by decide) (by decide) (by decide)
     (by rfl) (by decide)⟩

/-! ### C9 -/

/-- C9: assigning a string to the `topic` property leaves the whole service
state (in particular the stored topic) unchanged — the setter validates the
type but never stores the value — so `topic` keeps its construction-time
value (the given topic, or `"rpi-sense"` when none was given); assigning a
non-string raises `TypeError`. -/
theorem topic_setter_never_stores
    (svc svc' : SenseHatMQTT) (s : String) (v : PyVal) (t : String)
    (ds : Option SensorDataSmoother) (hri : ℚ) (tu : Option String)
    (svcT svcD : SenseHatMQTT)
    (hstr : svc.set_topic (.str s) = .ok svc')
    (hnot : ∀ w : String, v ≠ .str w)
    (ht : t ≠ "")
    (hiT : SenseHatMQTT.init (some t) ds hri none tu = .ok svcT)
    (hiD : SenseHatMQTT.init none ds hri none tu = .ok svcD) :
    svc' = svc ∧
    svc.set_topic v = .error (.typeError "topic must be a string!") ∧
    svcT.topic = t ∧ svcD.topic = "rpi-sense" := by
  refine ⟨?_, ?_, ?_, ?_⟩
  · have h := hstr
    unfold SenseHatMQTT.set_topic at h
    injection h with h
    exact h.symm
  · cases v with
    | str w => exact absurd rfl (hnot w)
    | int n => rfl
    | rat q => rfl
    | pyNone => rfl
  · have h := hiT
    unfold SenseHatMQTT.init SenseHatMQTT.set_temperature_source at h
    rw [if_pos (by decide)] at h
    injection h with h
    rw [← h]
    show (if t = "" then "rpi-sense" else t) = t
    exact if_neg ht
  · have h := hiD
    unfold SenseHatMQTT.init SenseHatMQTT.set_temperature_source at h
    rw [if_pos (by decide)] at h
    injection h with h
    rw [← h]

/-- Witness for C9: a plain service, the string `"a-new-topic"`, the
non-string `3`, and construction topics `"custom"` and the default. -/
theorem topic_setter_never_stores_witness :
    svcPlain = svcPlain ∧
    SenseHatMQTT.set_topic svcPlain (.int 3) =
      .error (.typeError "topic must be a string!") ∧
    ({ svcPlain with topic := "custom" } : SenseHatMQTT).topic = "custom" ∧
    svcPlain.topic = "rpi-sense" :=
  topic_setter_never_stores svcPlain svcPlain "a-new-topic" (.int 3) "custom"
    none 1 none { svcPlain with topic := "custom" } svcPlain
    (by rfl) (fun w h => PyVal.noConfusion h) (by decide) (by rfl) (by rfl)

/-! ### C10 -/

/-- C10: for a moving-average smoother with `window_size ≥ 1` the window is
non-empty after every `apply`, so the division by the window length never
divides by zero; with `window_size = 0` (unvalidated at construction)
`apply` raises `ZeroDivisionError` immediately. -/
theorem moving_average_division_safety
    (s₀ s₁ : SensorDataSmoother) (x : ℚ)
    (h₀ : s₀.method = "moving_average") (h₁ : s₁.method = "moving_average")
    (hw₀ : 1 ≤ s₀.window_size) (hw₁ : s₁.window_size = 0) :
    (∃ y s', s₀.apply x = .ok (y, s') ∧ s'.data ≠ []) ∧
    s₁.apply x = .error .zeroDivisionError := by
  constructor
  · rw [apply_of_method_ma s₀ x h₀]
    unfold SensorDataSmoother.moving_average
    have hlen : (dequeAppend s₀.window_size s₀.data x).length ≠ 0 := by
      rw [dequeAppend_length]; omega
    rw [if_neg hlen]
    refine ⟨_, _, rfl, ?_⟩
    show dequeAppend s₀.window_size s₀.data x ≠ []
    intro hnil
    exact hlen (by rw [hnil]; rfl)
  · rw [apply_of_method_ma s₁ x h₁]
    unfold SensorDataSmoother.moving_average
    rw [if_pos (by rw [dequeAppend_length, hw₁]; omega)]

/-- Witness for C10 with windows 1 and 0 and the input 5. -/
theorem moving_average_division_safety_witness :
    (freshMA 1).method = "moving_average" ∧
    ((∃ y s', (freshMA 1).apply 5 = .ok (y, s') ∧ s'.data ≠ []) ∧
      (freshMA 0).apply 5 = .error .zeroDivisionError) :=
  ⟨rfl, moving_average_division_safety (freshMA 1) (freshMA 0) 5
    rfl rfl (by decide) rfl⟩

/-! ### C1 -/

/-- C1 (code bug): `start_collector` hands the sampler the very
`data_smoother` object the publish path uses, so the two smoothers are one
instance.  Concretely, on a service with a window-2 moving average, one
sampler iteration on the raw reading 100 changes the publish-path smoother
state, and the subsequent publish-path temperature for the raw reading 0
becomes 50 (mean of the shared window `[100, 0]`) instead of 0 — refuting
the claimed isolation. -/
theorem sampler_apply_mutates_publish_smoother :
    svcShared.collector_step 100 =
      { svcShared with data_smoother := some { freshMA 2 with data := [100] } } ∧
    ({ svcShared with data_smoother := some { freshMA 2 with data := [100] } }
        : SenseHatMQTT).data_smoother ≠ svcShared.data_smoother ∧
    ({ svcShared with data_smoother := some { freshMA 2 with data := [100] } }
        : SenseHatMQTT).get_temp 0 0 =
      .ok (50, { svcShared with
                  data_smoother := some { freshMA 2 with data := [100, 0] } }) ∧
    svcShared.get_temp 0 0 =
      .ok (0, { svcShared with
                 data_smoother := some { freshMA 2 with data := [0] } }) := by
  refine ⟨rfl, ?_, ?_, ?_⟩
  · intro h
    simp [svcShared, freshMA] at h
  · have h : ({ svcShared with
        data_smoother := some { freshMA 2 with data := [100] } }
          : SenseHatMQTT).get_temp 0 0 =
        .ok ((dequeAppend 2 [100] 0).sum / ((dequeAppend 2 [100] 0).length : ℚ),
             { svcShared with
                data_smoother := some { freshMA 2 with data := [100, 0] } }) := rfl
    rw [h]
    norm_num [dequeAppend]
  · have h : svcShared.get_temp 0 0 =
        .ok ((dequeAppend 2 [] 0).sum / ((dequeAppend 2 [] 0).length : ℚ),
             { svcShared with
                data_smoother := some { freshMA 2 with data := [0] } }) := rfl
    rw [h]
    norm_num [dequeAppend]

/-! ### C8 -/

/-- C8 (code bug): for the Sampler, `stop()` before `start()` and a
repeated `stop()` are error-free no-ops leaving `running = False`; but for
the Service, `stop()` called before `run()`/`start_collector()` raises
`AttributeError` because `self.temp_collector` is still `None` — refuting
the claim for the Service.  After the collector exists, a second service
`stop()` is a no-op. -/
theorem service_stop_before_start_raises :
    (collectorFresh.stop = collectorFresh ∧
      ∀ c : HighResTempCollector, c.stop.running = false ∧ c.stop.stop = c.stop) ∧
    SenseHatMQTT.init none none 1 none none = .ok svcPlain ∧
    svcPlain.stop = .error (.attributeError "NoneType object has no attribute stop") ∧
    (∃ svcStopped, svcPlain.start_collector.stop = .ok svcStopped ∧
      svcStopped.stop = .ok svcStopped ∧ svcStopped.running = false) :=
  ⟨⟨rfl, fun _ => ⟨rfl, rfl⟩⟩, rfl, rfl, ⟨_, rfl, rfl, rfl⟩⟩

/-! ### C7 -/

/-- C7: every successfully assembled metric bundle is the ordered key/value
object with exactly the keys `temperature`, `pressure`, `humidity`,
`real_feel`, `dew_point`, every value a multiple of 1/100 (rounded to two
decimal places), and the Celsius dew point satisfies
`dew_point(t, h, "C") = t - ((100 - h) / 5)`, in particular
`dew_point(25, 60, "C") = 17`. -/
theorem get_sense_data_of_get_temp (svc : SenseHatMQTT) (th tp p h temp : ℚ)
    (svc₂ : SenseHatMQTT) (hgt : svc.get_temp th tp = .ok (temp, svc₂)) :
    svc.get_sense_data th tp p h =
      .ok ([("temperature", pyRound2 temp),
            ("pressure", pyRound2 p),
            ("humidity", pyRound2 h),
            ("real_feel",
              pyRound2 (Temperature.calculate_heat_index temp h svc.TEMP_UNIT)),
            ("dew_point",
              pyRound2 (Temperature.calculate_dew_point temp h svc.TEMP_UNIT))],
           svc₂) := by
  unfold SenseHatMQTT.get_sense_data
  rw [hgt]

theorem publish_payload_shape_and_dew_point
    (svc : SenseHatMQTT) (th tp p h : ℚ)
    (payload : List (String × ℚ)) (svc₁ : SenseHatMQTT)
    (hok : svc.get_sense_data th tp p h = .ok (payload, svc₁)) :
    payload.map Prod.fst =
      ["temperature", "pressure", "humidity", "real_feel", "dew_point"] ∧
    (∀ v ∈ payload.map Prod.snd, ∃ k : ℤ, v = (k : ℚ) / 100) ∧
    (∀ t hu : ℚ, Temperature.calculate_dew_point t hu "C" = t - ((100 - hu) / 5)) ∧
    Temperature.calculate_dew_point 25 60 "C" = 17 := by
  cases hgt : svc.get_temp th tp with
  | error e =>
    unfold SenseHatMQTT.get_sense_data at hok
    simp [hgt] at hok
  | ok r =>
    obtain ⟨temp, svc₂⟩ := r
    rw [get_sense_data_of_get_temp svc th tp p h temp svc₂ hgt] at hok
    injection hok with h1
    injection h1 with hpl hsvc
    subst hpl
    refine ⟨rfl, ?_, fun t hu => rfl, ?_⟩
    swap
    · have hd : Temperature.calculate_dew_point 25 60 "C" = 25 - ((100 - 60) / 5) := rfl
      rw [hd]
      norm_num
    intro v hv
    simp only [List.map_cons, List.map_nil, List.mem_cons,
      List.not_mem_nil, or_false] at hv
    rcases hv with h | h | h | h | h <;> exact ⟨_, h⟩

/-- Witness payload for C7: the bundle assembled from readings
`temp = 20 °C`, `pressure = 1013`, `humidity = 50` on a plain service. -/
def payloadW : List (String × ℚ) :=
  [("temperature", pyRound2 20),
   ("pressure", pyRound2 1013),
   ("humidity", pyRound2 50),
   ("real_feel", pyRound2 (Temperature.calculate_heat_index 20 50 "C")),
   ("dew_point", pyRound2 (Temperature.calculate_dew_point 20 50 "C"))]

/-- Witness for C7 on a plain Celsius service with readings 20/1013/50. -/
theorem publish_payload_shape_and_dew_point_witness :
    svcPlain.get_sense_data 20 0 1013 50 = .ok (payloadW, svcPlain) ∧
    (payloadW.map Prod.fst =
        ["temperature", "pressure", "humidity", "real_feel", "dew_point"] ∧
      (∀ v ∈ payloadW.map Prod.snd, ∃ k : ℤ, v = (k : ℚ) / 100) ∧
      (∀ t hu : ℚ, Temperature.calculate_dew_point t hu "C" = t - ((100 - hu) / 5)) ∧
      Temperature.calculate_dew_point 25 60 "C" = 17) :=
  ⟨rfl, publish_payload_shape_and_dew_point svcPlain 20 0 1013 50 payloadW svcPlain rfl⟩

/-! ### C3 -/

theorem foldl_dequeAppend (N : Nat) (xs : List ℚ) :
    ∀ d : List ℚ, d.length ≤ N →
      List.foldl (dequeAppend N) d xs = (d ++ xs).drop (d.length + xs.length - N) := by
  induction xs with
  | nil =>
    intro d hd
    have h0 : d.length + ([] : List ℚ).length - N = 0 := by
      simp only [List.length_nil]
      omega
    rw [List.foldl_nil, List.append_nil, h0, List.drop_zero]
  | cons x xs ih =>
    intro d hd
    have hlen : (dequeAppend N d x).length = min (d.length + 1) N := dequeAppend_length N d x
    rw [List.foldl_cons, ih (dequeAppend N d x) (by omega)]
    have hda : dequeAppend N d x = (d ++ [x]).drop ((d ++ [x]).length - N) := rfl
    rw [hda, ← List.drop_append_of_le_length (Nat.sub_le _ _), List.drop_drop,
      List.append_assoc, List.singleton_append]
    congr 1
    simp only [List.length_drop, List.length_append, List.length_cons, List.length_nil]
    omega

theorem apply_ma_eq (s : SensorDataSmoother) (x : ℚ)
    (hm : s.method = "moving_average") (hw : 1 ≤ s.window_size) :
    s.apply x = .ok ((dequeAppend s.window_size s.data x).sum /
                      ((dequeAppend s.window_size s.data x).length : ℚ),
                    { s with data := dequeAppend s.window_size s.data x }) := by
  rw [apply_of_method_ma s x hm]
  unfold SensorDataSmoother.moving_average
  rw [if_neg (by rw [dequeAppend_length]; omega)]

theorem applyList_moving_average (xs : List ℚ) :
    ∀ s : SensorDataSmoother, s.method = "moving_average" → 1 ≤ s.window_size →
      ∃ ys s₂, applyList s xs = .ok (ys, s₂) ∧
        s₂.method = s.method ∧ s₂.window_size = s.window_size ∧
        s₂.data = List.foldl (dequeAppend s.window_size) s.data xs ∧
        ys.length = xs.length ∧
        (xs ≠ [] → ys.getLast? = some (s₂.data.sum / (s₂.data.length : ℚ))) := by
  induction xs with
  | nil =>
    intro s _ _
    exact ⟨[], s, rfl, rfl, rfl, rfl, rfl, fun hne => absurd rfl hne⟩
  | cons x xs ih =>
    intro s hm hw
    have hap := apply_ma_eq s x hm hw
    obtain ⟨ys, s₂, happ, hmeth, hwin, hdata, hylen, hlast⟩ :=
      ih { s with data := dequeAppend s.window_size s.data x } hm hw
    refine ⟨((dequeAppend s.window_size s.data x).sum /
        ((dequeAppend s.window_size s.data x).length : ℚ)) :: ys, s₂,
        ?_, hmeth, hwin, ?_, ?_, ?_⟩
    · simp only [applyList, hap, happ]
    · rw [List.foldl_cons]
      exact hdata
    · simp only [List.length_cons, hylen]
    · intro _
      cases xs with
      | nil =>
        simp only [applyList] at happ
        injection happ with happ
        injection happ with hys hs
        subst hys hs
        exact (List.getLast?_singleton _).symm ▸ rfl
      | cons x' xs' =>
        have hys : ys ≠ [] := by
          intro hnil
          rw [hnil] at hylen
          simp at hylen
        cases ys with
        | nil => exact absurd rfl hys
        | cons y' ys' =>
          rw [List.getLast?_cons_cons]
          exact hlast (List.cons_ne_nil _ _)

/-- C3: for every window size `N ≥ 1` and input sequence of length `≥ N`,
feeding the sequence through a fresh moving-average smoother produces one
output per input, leaves exactly the last `N` inputs in the window (the
oldest evicted), and the final output equals the arithmetic mean of exactly
those last `N` inputs (so for every prefix of length `≥ N`, the output of
its last apply is the mean of that prefix's last `N` values). -/
theorem moving_average_mean_of_last_N
    (N : Nat) (xs ys : List ℚ) (s' : SensorDataSmoother)
    (hN : 1 ≤ N) (hlen : N ≤ xs.length)
    (h : applyList (freshMA N) xs = .ok (ys, s')) :
    ys.length = xs.length ∧
    s'.data = xs.drop (xs.length - N) ∧
    ys.getLast? = some ((xs.drop (xs.length - N)).sum / (N : ℚ)) := by
  obtain ⟨ys₁, s₂, happ, hmeth, hwin, hdata, hylen, hlast⟩ :=
    applyList_moving_average xs (freshMA N) rfl hN
  rw [h] at happ
  injection happ with happ
  injection happ with hys hs
  subst hys hs
  have hdata' : s'.data = List.foldl (dequeAppend N) [] xs := hdata
  have hfold : List.foldl (dequeAppend N) ([] : List ℚ) xs = xs.drop (xs.length - N) := by
    have hf := foldl_dequeAppend N xs [] (by simp)
    simpa using hf
  have hxs : xs ≠ [] := List.ne_nil_of_length_pos (by omega)
  have hdl : (xs.drop (xs.length - N)).length = N := by
    simp only [List.length_drop]
    omega
  refine ⟨hylen, by rw [hdata', hfold], ?_⟩
  have hl := hlast hxs
  rw [hdata', hfold, hdl] at hl
  exact hl

/-- The moving-average smoother state after feeding `[1, 2, 3]` through a
fresh window-2 instance: window `[2, 3]`. -/
def maEndState : SensorDataSmoother :=
  { method := "moving_average", window_size := 2, alpha := 1/5, data := [2, 3], ema := none }

/-- Witness for C3 with `N = 2` and inputs `[1, 2, 3]`: outputs
`[1, 3/2, 5/2]`, final window `[2, 3]`, last output `(2 + 3)/2`. -/
theorem moving_average_mean_of_last_N_witness :
    applyList (freshMA 2) [1, 2, 3] = .ok ([1, 3/2, 5/2], maEndState) ∧
    (([1, 3/2, 5/2] : List ℚ).length = ([1, 2, 3] : List ℚ).length ∧
      maEndState.data = ([1, 2, 3] : List ℚ).drop (([1, 2, 3] : List ℚ).length - 2) ∧
      ([1, 3/2, 5/2] : List ℚ).getLast? =
        some ((([1, 2, 3] : List ℚ).drop (([1, 2, 3] : List ℚ).length - 2)).sum /
          ((2 : Nat) : ℚ))) := by
  have h : applyList (freshMA 2) [1, 2, 3] = .ok ([1, 3/2, 5/2], maEndState) := by
    have h0 : applyList (freshMA 2) [1, 2, 3] =
        .ok ([(dequeAppend 2 [] 1).sum / ((dequeAppend 2 [] 1).length : ℚ),
              (dequeAppend 2 [1] 2).sum / ((dequeAppend 2 [1] 2).length : ℚ),
              (dequeAppend 2 [1, 2] 3).sum / ((dequeAppend 2 [1, 2] 3).length : ℚ)],
             maEndState) := rfl
    rw [h0]
    norm_num [dequeAppend, List.sum_cons, List.sum_nil]
  exact ⟨h, moving_average_mean_of_last_N 2 [1, 2, 3] [1, 3/2, 5/2] maEndState
    (by norm_num) (by norm_num) h⟩

/-! ### C4 -/

/-- The damping chain the spec states for exponential moving averages:
given the previous output, every output lies (inclusively) between the
previous output and the matching new input. -/
def emaDamped : ℚ → List ℚ → List ℚ → Bool
  | _, [], [] => true
  | prev, x :: xs, y :: ys =>
    (decide (min prev x ≤ y) && decide (y ≤ max prev x)) && emaDamped y xs ys
  | _, _, _ => false

theorem ema_between (a p x : ℚ) (h1 : 0 < a) (h2 : a ≤ 1) :
    min p x ≤ (1 - a) * p + a * x ∧ (1 - a) * p + a * x ≤ max p x := by
  rcases le_total p x with h | h
  · rw [min_eq_left h, max_eq_right h]
    constructor <;> nlinarith
  · rw [min_eq_right h, max_eq_left h]
    constructor <;> nlinarith

theorem apply_ema_some (s : SensorDataSmoother) (p x : ℚ)
    (hm : s.method = "exponential_moving_average") (he : s.ema = some p) :
    s.apply x = .ok ((1 - s.alpha) * p + s.alpha * x,
                     { s with ema := some ((1 - s.alpha) * p + s.alpha * x) }) := by
  rw [apply_of_method_ema s x hm]
  unfold SensorDataSmoother.exponential_moving_average
  rw [he]

theorem applyList_ema (xs : List ℚ) :
    ∀ (s : SensorDataSmoother) (p : ℚ), s.method = "exponential_moving_average" →
      s.ema = some p → 0 < s.alpha → s.alpha ≤ 1 →
      ∃ ys s₂, applyList s xs = .ok (ys, s₂) ∧ emaDamped p xs ys = true := by
  induction xs with
  | nil =>
    intro s p _ _ _ _
    exact ⟨[], s, rfl, rfl⟩
  | cons x xs ih =>
    intro s p hm he h1 h2
    have hap := apply_ema_some s p x hm he
    obtain ⟨ys, s₂, happ, hchain⟩ :=
      ih { s with ema := some ((1 - s.alpha) * p + s.alpha * x) }
        ((1 - s.alpha) * p + s.alpha * x) hm rfl h1 h2
    refine ⟨((1 - s.alpha) * p + s.alpha * x) :: ys, s₂, ?_, ?_⟩
    · simp only [applyList, hap, happ]
    · have hb := ema_between s.alpha p x h1 h2
      simp only [emaDamped, Bool.and_eq_true, decide_eq_true_eq]
      exact ⟨⟨hb.1, hb.2⟩, hchain⟩

/-- C4: for every smoothing factor `α ∈ (0, 1]`, feeding any sequence
through a fresh exponential-moving-average smoother makes the first output
equal the first input, and every later output lie (inclusively) between the
previous output and the new input. -/
theorem ema_first_output_and_damping (a x : ℚ) (xs ys : List ℚ)
    (s' : SensorDataSmoother) (h1 : 0 < a) (h2 : a ≤ 1)
    (h : applyList (freshEMA a) (x :: xs) = .ok (ys, s')) :
    ys.head? = some x ∧ emaDamped x xs ys.tail = true := by
  have hap : (freshEMA a).apply x = .ok (x, { freshEMA a with ema := some x }) := rfl
  obtain ⟨ys₁, s₂, happ, hchain⟩ :=
    applyList_ema xs { freshEMA a with ema := some x } x rfl rfl h1 h2
  have hall : applyList (freshEMA a) (x :: xs) = .ok (x :: ys₁, s₂) := by
    simp only [applyList, hap, happ]
  rw [h] at hall
  injection hall with hall
  injection hall with hys hs
  subst hys
  exact ⟨rfl, hchain⟩

/-- The smoother state after feeding `[1, 3]` through a fresh
exponential-moving-average instance with `α = 1/2`: running value 2. -/
def emaEndState : SensorDataSmoother :=
  { method := "exponential_moving_average", window_size := 5, alpha := 1/2,
    data := [], ema := some 2 }

/-- Witness for C4 with `α = 1/2` and inputs `[1, 3]`: outputs `[1, 2]`. -/
theorem ema_first_output_and_damping_witness :
    (0 : ℚ) < 1/2 ∧ (1/2 : ℚ) ≤ 1 ∧
    applyList (freshEMA (1/2)) [1, 3] = .ok ([1, 2], emaEndState) ∧
    (([1, 2] : List ℚ).head? = some 1 ∧
      emaDamped 1 [3] ([1, 2] : List ℚ).tail = true) := by
  have h : applyList (freshEMA (1/2)) [1, 3] = .ok ([1, 2], emaEndState) := by
    have h0 : applyList (freshEMA (1/2)) [1, 3] =
        .ok ([1, (1 - 1/2) * 1 + (1/2) * 3],
             { method := "exponential_moving_average", window_size := 5, alpha := 1/2,
               data := [], ema := some ((1 - 1/2) * 1 + (1/2) * 3) }) := rfl
    rw [h0]
    norm_num [emaEndState]
  exact ⟨by norm_num, by norm_num, h,
    ema_first_output_and_damping (1/2) 1 [3] [1, 2] emaEndState
      (by norm_num) (by norm_num) h⟩

end SenseService
